import Mathlib

/-!
Shallow embedding of the canvas coordinate-mapping and transform pipeline of
the sgg library (`src/sgg/core/backend/GLBackendTransform.cpp` and the scissor
computation in `src/sgg/core/backend/GLBackendDraw.cpp`).

Window/canvas state arithmetic is embedded over `ℚ` (the C++ code uses
`float`; the algorithms are purely rational, so exact arithmetic mirrors the
intended real-number behaviour).  The pose transform uses trigonometric
functions and is embedded over `ℝ`.
-/

namespace SGG

/-- Mirror of `glm::vec3`. -/
structure Vec3 (α : Type) where
  x : α
  y : α
  z : α
deriving DecidableEq

/-- Mirror of `glm::vec4`; in `m_canvas` the fields are used as
`{x = left, y = top, z = right/width, w = bottom/height}`. -/
structure Vec4 (α : Type) where
  x : α
  y : α
  z : α
  w : α
deriving DecidableEq

/-- A 4×4 matrix, written by rows: `mij` is row `i`, column `j`.  glm stores
matrices column-major, but its mathematical action `M * v` is the usual
row-by-column product, which is what is embedded here. -/
structure Mat4 (α : Type) where
  m00 : α
  m01 : α
  m02 : α
  m03 : α
  m10 : α
  m11 : α
  m12 : α
  m13 : α
  m20 : α
  m21 : α
  m22 : α
  m23 : α
  m30 : α
  m31 : α
  m32 : α
  m33 : α
deriving DecidableEq

namespace Mat4

variable {α : Type} [Field α]

/-- Matrix product (mirrors `glm::operator*` on `mat4`). -/
def mul (A B : Mat4 α) : Mat4 α where
  m00 := A.m00 * B.m00 + A.m01 * B.m10 + A.m02 * B.m20 + A.m03 * B.m30
  m01 := A.m00 * B.m01 + A.m01 * B.m11 + A.m02 * B.m21 + A.m03 * B.m31
  m02 := A.m00 * B.m02 + A.m01 * B.m12 + A.m02 * B.m22 + A.m03 * B.m32
  m03 := A.m00 * B.m03 + A.m01 * B.m13 + A.m02 * B.m23 + A.m03 * B.m33
  m10 := A.m10 * B.m00 + A.m11 * B.m10 + A.m12 * B.m20 + A.m13 * B.m30
  m11 := A.m10 * B.m01 + A.m11 * B.m11 + A.m12 * B.m21 + A.m13 * B.m31
  m12 := A.m10 * B.m02 + A.m11 * B.m12 + A.m12 * B.m22 + A.m13 * B.m32
  m13 := A.m10 * B.m03 + A.m11 * B.m13 + A.m12 * B.m23 + A.m13 * B.m33
  m20 := A.m20 * B.m00 + A.m21 * B.m10 + A.m22 * B.m20 + A.m23 * B.m30
  m21 := A.m20 * B.m01 + A.m21 * B.m11 + A.m22 * B.m21 + A.m23 * B.m31
  m22 := A.m20 * B.m02 + A.m21 * B.m12 + A.m22 * B.m22 + A.m23 * B.m32
  m23 := A.m20 * B.m03 + A.m21 * B.m13 + A.m22 * B.m23 + A.m23 * B.m33
  m30 := A.m30 * B.m00 + A.m31 * B.m10 + A.m32 * B.m20 + A.m33 * B.m30
  m31 := A.m30 * B.m01 + A.m31 * B.m11 + A.m32 * B.m21 + A.m33 * B.m31
  m32 := A.m30 * B.m02 + A.m31 * B.m12 + A.m32 * B.m22 + A.m33 * B.m32
  m33 := A.m30 * B.m03 + A.m31 * B.m13 + A.m32 * B.m23 + A.m33 * B.m33

/-- Matrix–vector product `M * v`. -/
def mulVec (A : Mat4 α) (v : Vec4 α) : Vec4 α where
  x := A.m00 * v.x + A.m01 * v.y + A.m02 * v.z + A.m03 * v.w
  y := A.m10 * v.x + A.m11 * v.y + A.m12 * v.z + A.m13 * v.w
  z := A.m20 * v.x + A.m21 * v.y + A.m22 * v.z + A.m23 * v.w
  w := A.m30 * v.x + A.m31 * v.y + A.m32 * v.z + A.m33 * v.w

/-- Mirror of `glm::mat4(1.0f)`. -/
def identity : Mat4 α :=
  ⟨1, 0, 0, 0, 0, 1, 0, 0, 0, 0, 1, 0, 0, 0, 0, 1⟩

end Mat4

/-- Mirror of `glm::ortho(l, r, b, t, n, f)` (the right-handed, [-1,1]
depth variant glm uses by default). -/
def orthoMat {α : Type} [Field α] (l r b t n f : α) : Mat4 α where
  m00 := 2 / (r - l)
  m01 := 0
  m02 := 0
  m03 := -(r + l) / (r - l)
  m10 := 0
  m11 := 2 / (t - b)
  m12 := 0
  m13 := -(t + b) / (t - b)
  m20 := 0
  m21 := 0
  m22 := -2 / (f - n)
  m23 := -(f + n) / (f - n)
  m30 := 0
  m31 := 0
  m32 := 0
  m33 := 1

/-- Mirror of `glm::scale(v)`: scaling matrix. -/
def scaleMat {α : Type} [Field α] (s : Vec3 α) : Mat4 α :=
  ⟨s.x, 0, 0, 0, 0, s.y, 0, 0, 0, 0, s.z, 0, 0, 0, 0, 1⟩

/-- Mirror of `glm::translate(v)`: translation matrix. -/
def translateMat {α : Type} [Field α] (v : Vec3 α) : Mat4 α :=
  ⟨1, 0, 0, v.x, 0, 1, 0, v.y, 0, 0, 1, v.z, 0, 0, 0, 1⟩

/-- Rotation about the Z axis, parameterized by the cosine and sine of the
angle (the specialization of `glm::rotate(angle, vec3(0,0,1))`). -/
def rotZmat {α : Type} [Field α] (c s : α) : Mat4 α :=
  ⟨c, -s, 0, 0, s, c, 0, 0, 0, 0, 1, 0, 0, 0, 0, 1⟩

/-- The matrix `glm::scale(glm::vec3(1.0f, -1.0f, 1.0f))`, the Y-flip
matrix used by `computeProjection`. -/
def flipMatrix {α : Type} [Field α] : Mat4 α :=
  scaleMat ⟨1, -1, 1⟩

/-- The enum `scale_mode_t` (`graphics::ScaleMode`). -/
inductive ScaleMode where
  | WINDOW
  | STRETCH
  | FIT
deriving DecidableEq

/-- The coordinate-mapping state of `GLBackend` (the fields of
`src/sgg/core/backend/GLBackend.h` read and written by
`GLBackendTransform.cpp`). -/
structure GLState where
  m_width : Int
  m_height : Int
  m_requested_canvas : Vec4 ℚ
  m_canvas : Vec4 ℚ
  m_canvas_mode : ScaleMode
  m_projection : Mat4 ℚ
  m_ui_projection : Mat4 ℚ
  m_window_to_canvas_factors : Vec4 ℚ
deriving DecidableEq

/-- Mirror of `GLBackend::computeProjection`. -/
def computeProjection (st : GLState) : GLState :=
  let n : ℚ := -1
  let f : ℚ := 1
  let true_aspect : ℚ := (st.m_width : ℚ) / (st.m_height : ℚ)
  let req_aspect : ℚ := st.m_requested_canvas.z / st.m_requested_canvas.w
  match st.m_canvas_mode with
  | ScaleMode.STRETCH =>
      let canvas := st.m_requested_canvas
      { st with
        m_canvas := canvas
        m_projection := flipMatrix.mul (orthoMat 0 canvas.z 0 canvas.w n f) }
  | ScaleMode.FIT =>
      let canvas :=
        if true_aspect > req_aspect then
          let aspect_ratio := true_aspect / req_aspect
          let offset := -st.m_requested_canvas.z * (aspect_ratio - 1) * (0.5 : ℚ)
          -- z is assigned aspect_ratio * requested.z and then incremented by x
          Vec4.mk offset 0 (aspect_ratio * st.m_requested_canvas.z + offset)
            st.m_requested_canvas.w
        else
          let aspect_ratio := req_aspect / true_aspect
          let offset := -st.m_requested_canvas.w * (aspect_ratio - 1) * (0.5 : ℚ)
          Vec4.mk 0 offset st.m_requested_canvas.z
            (aspect_ratio * st.m_requested_canvas.w + offset)
      { st with
        m_canvas := canvas
        m_projection :=
          flipMatrix.mul (orthoMat canvas.x canvas.z canvas.y canvas.w n f) }
  | ScaleMode.WINDOW =>
      let canvas : Vec4 ℚ := ⟨0, 0, (st.m_width : ℚ), (st.m_height : ℚ)⟩
      { st with
        m_canvas := canvas
        m_projection := flipMatrix.mul (orthoMat 0 canvas.z 0 canvas.w n f) }

/-- Mirror of `GLBackend::computeUIProjection`. -/
def computeUIProjection (st : GLState) : GLState :=
  let n : ℚ := -1
  let f : ℚ := 1
  match st.m_canvas_mode with
  | ScaleMode.STRETCH =>
      { st with
        m_ui_projection := orthoMat 0 st.m_canvas.z st.m_canvas.w 0 n f }
  | ScaleMode.FIT =>
      { st with
        m_ui_projection :=
          orthoMat st.m_canvas.x st.m_canvas.z st.m_canvas.w st.m_canvas.y n f }
  | ScaleMode.WINDOW =>
      { st with
        m_ui_projection :=
          orthoMat 0 (st.m_width : ℚ) (st.m_height : ℚ) 0 n f }

/-- The body of `GLBackend::resize` up to (but not including) the calls to
`computeProjection` / `computeUIProjection`: stores the window size, selects
the canvas (with the zero-requested-size sentinel) and computes the
window-to-canvas factors.  The user resize callback, which is external code,
is not modelled. -/
def resizeCore (st : GLState) (w h : Int) : GLState :=
  let canvas :=
    if st.m_requested_canvas.z = 0 ∨ st.m_requested_canvas.w = 0 then
      Vec4.mk 0 0 (w : ℚ) (h : ℚ)
    else
      st.m_requested_canvas
  let c_w := canvas.z
  let c_h := canvas.w
  let canvas_aspect := c_w / c_h
  let window_aspect := (w : ℚ) / (h : ℚ)
  let factors :=
    if st.m_canvas_mode = ScaleMode.FIT then
      if canvas_aspect > window_aspect then
        let scale_factor := c_w / (w : ℚ)
        Vec4.mk scale_factor 0 scale_factor
          (c_h * (0.5 : ℚ) - (h : ℚ) * scale_factor * (0.5 : ℚ))
      else
        let scale_factor := c_h / (h : ℚ)
        Vec4.mk scale_factor
          (c_w * (0.5 : ℚ) - (w : ℚ) * scale_factor * (0.5 : ℚ))
          scale_factor 0
    else
      Vec4.mk (c_w / (w : ℚ)) 0 (c_h / (h : ℚ)) 0
  { st with
    m_width := w
    m_height := h
    m_canvas := canvas
    m_window_to_canvas_factors := factors }

/-- Mirror of `GLBackend::resize` (the `glViewport` call has no effect on
this state). -/
def resize (st : GLState) (w h : Int) : GLState :=
  computeUIProjection (computeProjection (resizeCore st w h))

/-- Mirror of `GLBackend::setCanvasMode`. -/
def setCanvasMode (st : GLState) (m : ScaleMode) : GLState :=
  if m = ScaleMode.WINDOW then
    { st with m_canvas_mode := m, m_requested_canvas := ⟨0, 0, 0, 0⟩ }
  else
    { st with m_canvas_mode := m }

/-- Mirror of `GLBackend::setCanvasSize`. -/
def setCanvasSize (st : GLState) (w h : ℚ) : GLState :=
  { st with
    m_requested_canvas :=
      ⟨st.m_requested_canvas.x, st.m_requested_canvas.y, w, h⟩ }

/-- Mirror of `glm::clamp` on scalars. -/
def qclamp (v lo hi : ℚ) : ℚ :=
  min (max v lo) hi

/-- Mirror of `GLBackend::WindowToCanvasX`. -/
def WindowToCanvasX (st : GLState) (x : ℚ) (clamped : Bool) : ℚ :=
  let coord := st.m_window_to_canvas_factors.x * x + st.m_window_to_canvas_factors.y
  if clamped then qclamp coord 0 st.m_canvas.z else coord

/-- Mirror of `GLBackend::WindowToCanvasY`. -/
def WindowToCanvasY (st : GLState) (y : ℚ) (clamped : Bool) : ℚ :=
  let coord := st.m_window_to_canvas_factors.z * y + st.m_window_to_canvas_factors.w
  if clamped then qclamp coord 0 st.m_canvas.w else coord

/-- The scissor rectangle computed by `GLBackend::draw`
(`GLBackendDraw.cpp`): `some rect` when the scissor test is enabled
(`CANVAS_SCALE_FIT`), `none` when no scissor clipping is applied. -/
def computeScissor (st : GLState) : Option (Vec4 ℚ) :=
  if st.m_canvas_mode = ScaleMode.FIT then
    let true_aspect : ℚ := (st.m_width : ℚ) / (st.m_height : ℚ)
    let req_aspect : ℚ := st.m_requested_canvas.z / st.m_requested_canvas.w
    let width_constrained := true_aspect > req_aspect
    some
      ⟨if width_constrained then
          ((st.m_width : ℚ) - (st.m_height : ℚ) * req_aspect) * (0.5 : ℚ)
        else 0,
        if ¬width_constrained then
          ((st.m_height : ℚ) - (st.m_width : ℚ) / req_aspect) * (0.5 : ℚ)
        else 0,
        if width_constrained then (st.m_height : ℚ) * req_aspect
        else (st.m_width : ℚ),
        if ¬width_constrained then (st.m_width : ℚ) / req_aspect
        else (st.m_height : ℚ)⟩
  else
    none

/-- A `GLBackend` state as default-initialized by the header
(`m_requested_canvas = vec4(0)`, `m_canvas_mode = CANVAS_SCALE_WINDOW`,
`m_transformation = mat4(1)`); the remaining fields are given definite
zero/identity values. -/
def initState : GLState where
  m_width := 0
  m_height := 0
  m_requested_canvas := ⟨0, 0, 0, 0⟩
  m_canvas := ⟨0, 0, 0, 0⟩
  m_canvas_mode := ScaleMode.WINDOW
  m_projection := Mat4.identity
  m_ui_projection := Mat4.identity
  m_window_to_canvas_factors := ⟨0, 0, 0, 0⟩

/-- The state reached by `setCanvasSize(100, 100); setCanvasMode(CANVAS_SCALE_FIT)`. -/
def stFit100 : GLState :=
  setCanvasMode (setCanvasSize initState 100 100) ScaleMode.FIT

/-- The state after `resize(800, 600)` on `stFit100` (the worked example of
the specification). -/
def st800 : GLState :=
  resize stFit100 800 600

/-! ## The pose transform (`m_transformation`, `m_orientation`, `m_scale`) -/

/-- The pose-related state of `GLBackend`, over `ℝ` since the rotation uses
trigonometric functions. -/
structure PoseState where
  m_transformation : Mat4 ℝ
  m_orientation : ℝ
  m_scale : Vec3 ℝ

/-- Mirror of `glm::rotate(theta, glm::vec3(0,0,1))`: rotation about Z by
`theta` radians. -/
noncomputable def rotZ (theta : ℝ) : Mat4 ℝ :=
  rotZmat (Real.cos theta) (Real.sin theta)

/-- The constant `deg_to_rad = -glm::pi<float>() / 180.0f` of
`GLBackend::computeTransformation` (note the built-in negation). -/
noncomputable def deg_to_rad : ℝ :=
  -Real.pi / 180

/-- Mirror of `glm::radians(angleDeg)` (used by `GLBackend::rotate`). -/
noncomputable def radiansOf (angleDeg : ℝ) : ℝ :=
  angleDeg * (Real.pi / 180)

/-- Mirror of `GLBackend::computeTransformation`. -/
noncomputable def computeTransformation (st : PoseState) : PoseState :=
  { st with
    m_transformation :=
      (rotZ (deg_to_rad * st.m_orientation)).mul (scaleMat st.m_scale) }

/-- Mirror of `GLBackend::setScale`. -/
noncomputable def setScale (st : PoseState) (sx sy sz : ℝ) : PoseState :=
  computeTransformation { st with m_scale := ⟨sx, sy, sz⟩ }

/-- Mirror of `GLBackend::setOrientation`. -/
noncomputable def setOrientation (st : PoseState) (degrees : ℝ) : PoseState :=
  computeTransformation { st with m_orientation := degrees }

/-- Mirror of `GLBackend::resetPose`. -/
noncomputable def resetPose (st : PoseState) : PoseState :=
  { st with
    m_transformation := Mat4.identity
    m_scale := ⟨1, 1, 1⟩
    m_orientation := 0 }

/-- Mirror of `GLBackend::translate`: `glm::translate(m, v)` post-multiplies
the translation onto the current transform. -/
noncomputable def translatePose (st : PoseState) (dx dy : ℝ) : PoseState :=
  { st with
    m_transformation := st.m_transformation.mul (translateMat ⟨dx, dy, 0⟩) }

/-- Mirror of `GLBackend::rotate`: `glm::rotate(m, radians(a), z)`
post-multiplies the rotation onto the current transform. -/
noncomputable def rotatePose (st : PoseState) (angleDeg : ℝ) : PoseState :=
  { st with
    m_transformation := st.m_transformation.mul (rotZ (radiansOf angleDeg)) }

/-- Mirror of `GLBackend::scale`: `glm::scale(m, vec3(sx, sy, 1))`
post-multiplies the scale onto the current transform. -/
noncomputable def scalePose (st : PoseState) (sx sy : ℝ) : PoseState :=
  { st with
    m_transformation := st.m_transformation.mul (scaleMat ⟨sx, sy, 1⟩) }

/-- The default pose (`m_transformation = mat4(1)`, `m_orientation = 0`,
`m_scale = vec3(1)`). -/
noncomputable def initPose : PoseState :=
  ⟨Mat4.identity, 0, ⟨1, 1, 1⟩⟩

/-- The spec's `Rotate(d°, Z-axis)`: rotation about Z by `d` degrees. -/
noncomputable def RotateDeg (d : ℝ) : Mat4 ℝ :=
  rotZ (d * (Real.pi / 180))

/-! ## Characterization of `resize` in Fit mode -/

/-- The `m_canvas` value `computeProjection` produces in `CANVAS_SCALE_FIT`
mode, as a function of the requested canvas and the window size. -/
def fitCanvas (rc : Vec4 ℚ) (w h : Int) : Vec4 ℚ :=
  let ta : ℚ := (w : ℚ) / (h : ℚ)
  let ra : ℚ := rc.z / rc.w
  if ta > ra then
    let ar := ta / ra
    let off := -rc.z * (ar - 1) * (0.5 : ℚ)
    ⟨off, 0, ar * rc.z + off, rc.w⟩
  else
    let ar := ra / ta
    let off := -rc.w * (ar - 1) * (0.5 : ℚ)
    ⟨0, off, rc.z, ar * rc.w + off⟩

/-- The `m_window_to_canvas_factors` value `resize` produces in
`CANVAS_SCALE_FIT` mode when the requested canvas is not the zero sentinel. -/
def fitFactors (rc : Vec4 ℚ) (w h : Int) : Vec4 ℚ :=
  if rc.z / rc.w > (w : ℚ) / (h : ℚ) then
    let sf := rc.z / (w : ℚ)
    ⟨sf, 0, sf, rc.w * (0.5 : ℚ) - (h : ℚ) * sf * (0.5 : ℚ)⟩
  else
    let sf := rc.w / (h : ℚ)
    ⟨sf, rc.z * (0.5 : ℚ) - (w : ℚ) * sf * (0.5 : ℚ), sf, 0⟩

/-! ## Screen-space interpretation of clip-space output -/

/-- The top-left-origin window pixel Y corresponding to a clip-space (NDC)
y for a viewport of the given pixel height: OpenGL places NDC `y = 1` at the
top of the viewport and `y = -1` at the bottom, and window pixel Y counts
down from the top. -/
def screenYFromNdc (height ndcY : ℚ) : ℚ :=
  (1 - ndcY) / 2 * height

/-- Window pixel Y (top-left origin) of a canvas-space point under the
world projection of a state. -/
def worldScreenY (st : GLState) (p : Vec4 ℚ) : ℚ :=
  screenYFromNdc (st.m_height : ℚ) ((st.m_projection.mulVec p).y)

/-- Window pixel Y (top-left origin) of a canvas-space point under the UI
projection of a state. -/
def uiScreenY (st : GLState) (p : Vec4 ℚ) : ℚ :=
  screenYFromNdc (st.m_height : ℚ) ((st.m_ui_projection.mulVec p).y)

/-- The pose state of the spec's example scenario:
`setScale(2,2,1); setOrientation(90)` starting from the default pose. -/
noncomputable def pose90 : PoseState :=
  setOrientation (setScale initPose 2 2 1) 90

/-- The scissor rectangle as the claim/spec words it: horizontally centered
and height-filling when the window is relatively wider than the canvas,
otherwise vertically centered and width-filling. -/
def claimedScissorRect (width height canvasW canvasH : ℚ) : Vec4 ℚ :=
  let canvasAspect := canvasW / canvasH
  let windowAspect := width / height
  if windowAspect > canvasAspect then
    ⟨(width - height * canvasAspect) / 2, 0, height * canvasAspect, height⟩
  else
    ⟨0, (height - width / canvasAspect) / 2, width, width / canvasAspect⟩

/-! ## General lemmas -/

/-- Sanity evaluation of the worked example: after `resize(800,600)` in Fit
mode with requested canvas 100×100 the active canvas is the width-inflated
rectangle `(-50/3, 0, 350/3, 100)`. -/
theorem st800_canvas_value : st800.m_canvas = ⟨-50/3, 0, 350/3, 100⟩ := by
  norm_num +decide [st800, resize, resizeCore, stFit100, setCanvasMode,
    setCanvasSize, initState, computeProjection, computeUIProjection,
    Vec4.mk.injEq]

/-- Sanity evaluation of the worked example: the window-to-canvas factors
are a uniform 1/6 scale with a -50/3 horizontal offset. -/
theorem st800_factors_value :
    st800.m_window_to_canvas_factors = ⟨1/6, -50/3, 1/6, 0⟩ := by
  norm_num +decide [st800, resize, resizeCore, stFit100, setCanvasMode,
    setCanvasSize, initState, computeProjection, computeUIProjection,
    Vec4.mk.injEq]

/-- In Fit mode with a non-sentinel requested canvas, `resize` is exactly:
store the window size, set `m_canvas := fitCanvas`, build the world
projection as `flip * ortho` over the canvas rectangle, build the UI
projection with swapped bottom/top arguments, and set the fit factors. -/
theorem resize_fit_eq (st : GLState) (w h : Int)
    (hmode : st.m_canvas_mode = ScaleMode.FIT)
    (hz : st.m_requested_canvas.z ≠ 0) (hw4 : st.m_requested_canvas.w ≠ 0) :
    resize st w h =
      { st with
        m_width := w
        m_height := h
        m_canvas := fitCanvas st.m_requested_canvas w h
        m_projection :=
          flipMatrix.mul
            (orthoMat (fitCanvas st.m_requested_canvas w h).x
              (fitCanvas st.m_requested_canvas w h).z
              (fitCanvas st.m_requested_canvas w h).y
              (fitCanvas st.m_requested_canvas w h).w (-1) 1)
        m_ui_projection :=
          orthoMat (fitCanvas st.m_requested_canvas w h).x
            (fitCanvas st.m_requested_canvas w h).z
            (fitCanvas st.m_requested_canvas w h).w
            (fitCanvas st.m_requested_canvas w h).y (-1) 1
        m_window_to_canvas_factors := fitFactors st.m_requested_canvas w h } := by
  rcases st with ⟨w0, h0, rc, cv, mode, pr, ui, fac⟩
  simp only at hmode hz hw4
  subst hmode
  have hsent : ¬(rc.z = 0 ∨ rc.w = 0) := by
    push_neg
    exact ⟨hz, hw4⟩
  simp +decide [resize, resizeCore, computeProjection, computeUIProjection,
    fitCanvas, fitFactors, hsent]

/-- Clip-space y of the world (Y-flipped) projection. -/
theorem worldProj_ndcY (l r b t cx cy : ℚ) :
    ((flipMatrix.mul (orthoMat l r b t (-1) 1)).mulVec ⟨cx, cy, 0, 1⟩).y
      = -(2 * cy - (t + b)) / (t - b) := by
  simp [flipMatrix, scaleMat, Mat4.mul, Mat4.mulVec, orthoMat]
  ring

/-- Clip-space y of a plain orthographic projection. -/
theorem orthoProj_ndcY (l r b t cx cy : ℚ) :
    ((orthoMat l r b t (-1) 1).mulVec ⟨cx, cy, 0, 1⟩).y
      = (2 * cy - (t + b)) / (t - b) := by
  simp [Mat4.mulVec, orthoMat]
  ring

/-- The function `screenYFromNdc` is strictly decreasing in the NDC value. -/
theorem screenYFromNdc_lt_iff (H a b : ℚ) (hH : 0 < H) :
    screenYFromNdc H a < screenYFromNdc H b ↔ b < a := by
  unfold screenYFromNdc
  constructor <;> intro hab <;> nlinarith

/-- The code's rotation angle `deg_to_rad * d` equals the angle of the
spec's `Rotate(-d°, Z-axis)`. -/
theorem deg_to_rad_mul (d : ℝ) : deg_to_rad * d = -d * (Real.pi / 180) := by
  simp only [deg_to_rad]
  ring

/-! ## Claims -/

/-- Claim C4: for every orientation (degrees) and scale vector, after
`setOrientation` and/or `setScale` the cached pose transform equals
`Rotate(-orientation°, Z-axis) * Scale(scale)`: the rotation angle is
negated relative to the passed-in value, and the rotation matrix
left-multiplies the scale matrix. -/
theorem C4_pose_transform (st : PoseState) (d sx sy sz : ℝ) :
    (setOrientation (setScale st sx sy sz) d).m_transformation
        = (RotateDeg (-d)).mul (scaleMat ⟨sx, sy, sz⟩)
    ∧ (setOrientation st d).m_transformation
        = (RotateDeg (-d)).mul (scaleMat st.m_scale)
    ∧ (setScale st sx sy sz).m_transformation
        = (RotateDeg (-st.m_orientation)).mul (scaleMat ⟨sx, sy, sz⟩) := by
  refine ⟨?_, ?_, ?_⟩ <;>
    simp only [setOrientation, setScale, computeTransformation, RotateDeg,
      deg_to_rad_mul]

/-- Claim C4 witness: instantiation at `d = 90`, `scale = (2, 2, 1)`. -/
theorem C4_pose_transform_witness :
    (setOrientation (setScale initPose 2 2 1) 90).m_transformation
        = (RotateDeg (-90)).mul (scaleMat ⟨2, 2, 1⟩)
    ∧ (setOrientation initPose 90).m_transformation
        = (RotateDeg (-90)).mul (scaleMat initPose.m_scale)
    ∧ (setScale initPose 2 2 1).m_transformation
        = (RotateDeg (-initPose.m_orientation)).mul (scaleMat ⟨2, 2, 1⟩) :=
  C4_pose_transform initPose 90 2 2 1

/-- Claim C9: `setOrientation` (and `setScale`) rebuild the cached pose
transform solely from the stored orientation and scale fields: after any
cumulative `translate`/`rotate`/`scale` composition starting from `st`,
`setOrientation d` yields `Rotate(-d°) * Scale(st.m_scale)`, identical to
calling it on `st` directly, and independent of the composed transform. -/
theorem C9_setters_discard_composition (st : PoseState)
    (dx dy a sx sy d nx ny nz : ℝ) :
    (setOrientation (scalePose (rotatePose (translatePose st dx dy) a) sx sy)
          d).m_transformation
        = (RotateDeg (-d)).mul (scaleMat st.m_scale)
    ∧ (setOrientation (scalePose (rotatePose (translatePose st dx dy) a) sx sy)
          d).m_transformation
        = (setOrientation st d).m_transformation
    ∧ (setScale (scalePose (rotatePose (translatePose st dx dy) a) sx sy)
          nx ny nz).m_transformation
        = (RotateDeg (-st.m_orientation)).mul (scaleMat ⟨nx, ny, nz⟩) := by
  refine ⟨?_, ?_, ?_⟩ <;>
    simp only [translatePose, rotatePose, scalePose, setOrientation, setScale,
      computeTransformation, RotateDeg, deg_to_rad_mul]

/-- The code's rotation angle for orientation 90 is `-π/2`. -/
theorem deg_to_rad_ninety : deg_to_rad * (90 : ℝ) = -(Real.pi / 2) := by
  simp only [deg_to_rad]
  ring

/-- Claim C7 counterexample: after `setScale(2,2,1); setOrientation(90)`,
the pose transform applied to the local point `(1,0,0)` does NOT give the
claimed offset `(0,2,0)`: its y component is `-2`. -/
theorem C7_counterexample :
    pose90.m_transformation.mulVec ⟨1, 0, 0, 1⟩ ≠ ⟨0, 2, 0, 1⟩ := by
  intro hcontra
  have h2 : (pose90.m_transformation.mulVec ⟨1, 0, 0, 1⟩).y = (2 : ℝ) := by
    rw [hcontra]
  simp only [pose90, setOrientation, setScale, computeTransformation,
    initPose, deg_to_rad_ninety] at h2
  norm_num [rotZ, rotZmat, scaleMat, Mat4.mul, Mat4.mulVec, Real.cos_neg,
    Real.sin_neg, Real.cos_pi_div_two, Real.sin_pi_div_two] at h2

/-- Claim C7 (amended): after `setScale(2,2,1); setOrientation(90)`, the
pose transform applied to the local point `(1,0,0)` yields the offset
`(0,-2,0)` exactly (the angle negation makes the raw transform a clockwise
rotation; it reads as `(0,2,0)` on screen only after the projection's
Y-flip). -/
theorem C7_amended :
    pose90.m_transformation.mulVec ⟨1, 0, 0, 1⟩ = ⟨0, -2, 0, 1⟩ := by
  simp only [pose90, setOrientation, setScale, computeTransformation,
    initPose, deg_to_rad_ninety]
  norm_num [rotZ, rotZmat, scaleMat, Mat4.mul, Mat4.mulVec, Real.cos_neg,
    Real.sin_neg, Real.cos_pi_div_two, Real.sin_pi_div_two, Vec4.mk.injEq]

/-- Claim C10: in `resize`, a requested canvas with either component zero
(not only both) selects the use-window-size sentinel: the canvas becomes
`{0, 0, windowWidth, windowHeight}`, so the subsequent canvas-aspect
division divides by the window height, which is nonzero for a positive
window height, never by a zero requested dimension. -/
theorem C10_zero_requested_sentinel (st : GLState) (w h : Int)
    (hzero : st.m_requested_canvas.z = 0 ∨ st.m_requested_canvas.w = 0)
    (hh : 0 < h) :
    (resizeCore st w h).m_canvas = ⟨0, 0, (w : ℚ), (h : ℚ)⟩
    ∧ (resizeCore st w h).m_canvas.w = (h : ℚ)
    ∧ ((h : ℚ) ≠ 0) := by
  refine ⟨?_, ?_, ?_⟩
  · simp only [resizeCore, if_pos hzero]
  · simp only [resizeCore, if_pos hzero]
  · exact_mod_cast hh.ne'

/-- Claim C10 witness: the default state (requested canvas `(0,0,0,0)`)
resized to 800×600. -/
theorem C10_zero_requested_sentinel_witness :
    ((initState.m_requested_canvas.z = 0 ∨ initState.m_requested_canvas.w = 0)
      ∧ (0 : Int) < 600)
    ∧ ((resizeCore initState 800 600).m_canvas = ⟨0, 0, 800, 600⟩
      ∧ (resizeCore initState 800 600).m_canvas.w = ((600 : Int) : ℚ)
      ∧ (((600 : Int) : ℚ) ≠ 0)) := by
  refine ⟨⟨Or.inl rfl, by norm_num⟩, ?_⟩
  have base :=
    C10_zero_requested_sentinel initState 800 600 (Or.inl rfl) (by norm_num)
  refine ⟨?_, base.2.1, base.2.2⟩
  rw [base.1]
  norm_num [Vec4.mk.injEq]

/-- Claim C5: in Fit mode, for every window size and positive requested
canvas, the draw-time scissor rectangle is exactly the claimed
centered/constrained rectangle, and no scissor clipping is applied in
Stretch or Window mode. -/
theorem C5_scissor_rect (st : GLState)
    (hw : 0 < st.m_width) (hh : 0 < st.m_height)
    (hz : 0 < st.m_requested_canvas.z) (hw4 : 0 < st.m_requested_canvas.w) :
    (st.m_canvas_mode = ScaleMode.FIT →
      computeScissor st =
        some (claimedScissorRect (st.m_width : ℚ) (st.m_height : ℚ)
          st.m_requested_canvas.z st.m_requested_canvas.w))
    ∧ (st.m_canvas_mode ≠ ScaleMode.FIT → computeScissor st = none) := by
  constructor
  · intro hmode
    simp only [computeScissor, claimedScissorRect, if_pos hmode]
    by_cases hcmp :
        (st.m_width : ℚ) / (st.m_height : ℚ)
          > st.m_requested_canvas.z / st.m_requested_canvas.w
    · simp only [if_pos hcmp, hcmp, not_true, if_neg, ite_true, ite_false,
        Option.some.injEq, Vec4.mk.injEq]
      norm_num
      ring
    · simp only [if_neg hcmp, hcmp, ite_false, ite_true, not_false_iff,
        Option.some.injEq, Vec4.mk.injEq]
      norm_num
      ring
  · intro hmode
    simp only [computeScissor, if_neg hmode]

/-- Claim C5 witness: the Fit-mode example state (window 800×600, requested
canvas 100×100). -/
theorem C5_scissor_rect_witness :
    ((0 : Int) < st800.m_width ∧ (0 : Int) < st800.m_height
      ∧ (0 : ℚ) < st800.m_requested_canvas.z
      ∧ (0 : ℚ) < st800.m_requested_canvas.w)
    ∧ ((st800.m_canvas_mode = ScaleMode.FIT →
        computeScissor st800 =
          some (claimedScissorRect (st800.m_width : ℚ) (st800.m_height : ℚ)
            st800.m_requested_canvas.z st800.m_requested_canvas.w))
      ∧ (st800.m_canvas_mode ≠ ScaleMode.FIT → computeScissor st800 = none)) := by
  have h1 : (0 : Int) < st800.m_width := by
    norm_num +decide [st800, resize, resizeCore, stFit100, setCanvasMode,
      setCanvasSize, initState, computeProjection, computeUIProjection]
  have h2 : (0 : Int) < st800.m_height := by
    norm_num +decide [st800, resize, resizeCore, stFit100, setCanvasMode,
      setCanvasSize, initState, computeProjection, computeUIProjection]
  have h3 : (0 : ℚ) < st800.m_requested_canvas.z := by
    norm_num +decide [st800, resize, resizeCore, stFit100, setCanvasMode,
      setCanvasSize, initState, computeProjection, computeUIProjection]
  have h4 : (0 : ℚ) < st800.m_requested_canvas.w := by
    norm_num +decide [st800, resize, resizeCore, stFit100, setCanvasMode,
      setCanvasSize, initState, computeProjection, computeUIProjection]
  exact ⟨⟨h1, h2, h3, h4⟩, C5_scissor_rect st800 h1 h2 h3 h4⟩

/-- Claim C3 counterexample: after `resize(800, 600)` with requested canvas
`(100,100)` in Fit mode, the unclamped `WindowToCanvasY(0)` is `0`, not
approximately `-16.67` (= `-50/3`) as claimed. -/
theorem C3_counterexample :
    WindowToCanvasY st800 0 false = 0 ∧ (0 : ℚ) ≠ -50 / 3 := by
  constructor
  · norm_num +decide [WindowToCanvasY, st800, resize, resizeCore, stFit100,
      setCanvasMode, setCanvasSize, initState, computeProjection,
      computeUIProjection]
  · norm_num

/-- Claim C3 (amended): with window 800×600 wider than the square requested
canvas, the letterbox offset is on the X axis, not the Y axis:
`WindowToCanvasY` maps 0 to 0 and 600 to 100 whether clamped or not, while
`WindowToCanvasX(0)` is `-50/3 ≈ -16.67` unclamped and `0` clamped, and
`WindowToCanvasX(800)` is `350/3 ≈ 116.67` unclamped — and also clamped,
because the clamp upper bound is the far-edge coordinate `m_canvas.z = 350/3`,
not the requested width 100. -/
theorem C3_amended :
    WindowToCanvasY st800 0 false = 0
    ∧ WindowToCanvasY st800 0 true = 0
    ∧ WindowToCanvasY st800 600 false = 100
    ∧ WindowToCanvasY st800 600 true = 100
    ∧ WindowToCanvasX st800 0 false = -50 / 3
    ∧ WindowToCanvasX st800 0 true = 0
    ∧ WindowToCanvasX st800 800 false = 350 / 3
    ∧ WindowToCanvasX st800 800 true = 350 / 3 := by
  refine ⟨?_, ?_, ?_, ?_, ?_, ?_, ?_, ?_⟩ <;>
    norm_num +decide [WindowToCanvasX, WindowToCanvasY, qclamp, min_def,
      max_def, st800, resize, resizeCore, stFit100, setCanvasMode,
      setCanvasSize, initState, computeProjection, computeUIProjection]

/-- Claim C8: `resize` is idempotent — calling it twice with the same
window size yields an identical state (in particular identical
`m_canvas`, `m_window_to_canvas_factors`, and both projection matrices),
for every canvas mode and requested canvas. -/
theorem C8_resize_idempotent (st : GLState) (w h : Int)
    (hw : 0 < w) (hh : 0 < h) :
    resize (resize st w h) w h = resize st w h := by
  rcases st with ⟨w0, h0, rc, cv, mode, pr, ui, fac⟩
  cases mode <;>
    simp +decide [resize, resizeCore, computeProjection, computeUIProjection]

/-- Claim C8 witness: 800×600 on the Fit example configuration. -/
theorem C8_resize_idempotent_witness :
    ((0 : Int) < 800 ∧ (0 : Int) < 600)
    ∧ resize (resize stFit100 800 600) 800 600 = resize stFit100 800 600 :=
  ⟨⟨by norm_num, by norm_num⟩,
    C8_resize_idempotent stFit100 800 600 (by norm_num) (by norm_num)⟩

/-- Claim C2 evaluation (code bug): `resize` has no zero-dimension guard.
Starting from the valid example state (after `resize(800,600)` in Fit mode),
`resize(0, 600)` is not a no-op: it overwrites `m_width` with 0 and changes
both `m_canvas` and `m_window_to_canvas_factors` (in the C++ float code the
corresponding divisions by the zero dimension produce inf/NaN), and
`resize(800, 0)` overwrites `m_height` with 0, although the specification
requires a zero dimension to short-circuit and leave prior state
untouched. -/
theorem C2_zero_resize_not_noop :
    (resize st800 0 600).m_width = 0
    ∧ (resize st800 800 0).m_height = 0
    ∧ (resize st800 0 600).m_canvas ≠ st800.m_canvas
    ∧ (resize st800 0 600).m_window_to_canvas_factors
        ≠ st800.m_window_to_canvas_factors := by
  refine ⟨?_, ?_, ?_, ?_⟩ <;>
    norm_num +decide [st800, resize, resizeCore, stFit100, setCanvasMode,
      setCanvasSize, initState, computeProjection, computeUIProjection,
      Vec4.mk.injEq]

/-- Claim C1 counterexample: window 800×600 and requested canvas 100×100 in
Fit mode have `canvasAspect = 1 ≤ windowAspect = 4/3`, so by the claim the
height-inflating branch (vertical offset, zero horizontal offset) should be
taken; the code instead inflates the width, setting a negative horizontal
offset and no vertical one. -/
theorem C1_counterexample :
    ((100 : ℚ) / 100 ≤ (800 : ℚ) / 600)
    ∧ (resize stFit100 800 600).m_canvas.x = -50 / 3
    ∧ (resize stFit100 800 600).m_canvas.x < 0
    ∧ (resize stFit100 800 600).m_canvas.y = 0 := by
  refine ⟨by norm_num, ?_, ?_, ?_⟩ <;>
    norm_num +decide [resize, resizeCore, stFit100, setCanvasMode,
      setCanvasSize, initState, computeProjection, computeUIProjection]

/-- Claim C1 (amended): in Fit mode, for every window size (w, h > 0) and
positive requested canvas, the resize recompute takes the wide-WINDOW
branch exactly when `windowAspect > canvasAspect`, and in that branch
inflates the canvas width by the factor `windowAspect/canvasAspect`
relative to height, with a symmetric negative horizontal offset centering
the original requested width inside the inflated span; otherwise it
symmetrically inflates the height by `canvasAspect/windowAspect` with a
nonpositive vertical offset. -/
theorem C1_fit_branches (st : GLState) (w h : Int)
    (hw : 0 < w) (hh : 0 < h)
    (hz : 0 < st.m_requested_canvas.z) (hw4 : 0 < st.m_requested_canvas.w)
    (hmode : st.m_canvas_mode = ScaleMode.FIT) :
    ((w : ℚ) / (h : ℚ) > st.m_requested_canvas.z / st.m_requested_canvas.w →
      (resize st w h).m_canvas.z - (resize st w h).m_canvas.x
          = ((w : ℚ) / (h : ℚ))
              / (st.m_requested_canvas.z / st.m_requested_canvas.w)
              * st.m_requested_canvas.z
        ∧ (resize st w h).m_canvas.x
            = -(st.m_requested_canvas.z
                * (((w : ℚ) / (h : ℚ))
                    / (st.m_requested_canvas.z / st.m_requested_canvas.w)
                  - 1)) / 2
        ∧ (resize st w h).m_canvas.x < 0
        ∧ (resize st w h).m_canvas.x + (resize st w h).m_canvas.z
            = st.m_requested_canvas.z
        ∧ (resize st w h).m_canvas.y = 0
        ∧ (resize st w h).m_canvas.w = st.m_requested_canvas.w)
    ∧ (¬((w : ℚ) / (h : ℚ)
          > st.m_requested_canvas.z / st.m_requested_canvas.w) →
      (resize st w h).m_canvas.w - (resize st w h).m_canvas.y
          = (st.m_requested_canvas.z / st.m_requested_canvas.w)
              / ((w : ℚ) / (h : ℚ)) * st.m_requested_canvas.w
        ∧ (resize st w h).m_canvas.y
            = -(st.m_requested_canvas.w
                * ((st.m_requested_canvas.z / st.m_requested_canvas.w)
                    / ((w : ℚ) / (h : ℚ)) - 1)) / 2
        ∧ (resize st w h).m_canvas.y ≤ 0
        ∧ (resize st w h).m_canvas.y + (resize st w h).m_canvas.w
            = st.m_requested_canvas.w
        ∧ (resize st w h).m_canvas.x = 0
        ∧ (resize st w h).m_canvas.z = st.m_requested_canvas.z) := by
  rw [resize_fit_eq st w h hmode hz.ne' hw4.ne']
  have hwq : (0 : ℚ) < (w : ℚ) := by exact_mod_cast hw
  have hhq : (0 : ℚ) < (h : ℚ) := by exact_mod_cast hh
  have hta : (0 : ℚ) < (w : ℚ) / (h : ℚ) := div_pos hwq hhq
  have hra : (0 : ℚ)
      < st.m_requested_canvas.z / st.m_requested_canvas.w := div_pos hz hw4
  constructor <;> intro hcmp
  · have har : 1 < ((w : ℚ) / (h : ℚ))
        / (st.m_requested_canvas.z / st.m_requested_canvas.w) :=
      (one_lt_div hra).mpr hcmp
    simp only [fitCanvas, if_pos hcmp]
    refine ⟨by ring, by ring, by nlinarith, by ring, trivial, trivial⟩
  · have har : 1 ≤ (st.m_requested_canvas.z / st.m_requested_canvas.w)
        / ((w : ℚ) / (h : ℚ)) :=
      (one_le_div hta).mpr (not_lt.mp hcmp)
    simp only [fitCanvas, if_neg hcmp]
    refine ⟨by ring, by ring, by nlinarith, by ring, trivial, trivial⟩

/-- Claim C1 witness: the amended branch characterization instantiated at
the Fit example configuration (window 800×600, requested canvas 100×100). -/
theorem C1_fit_branches_witness :
    ((0 : Int) < 800 ∧ (0 : Int) < 600
      ∧ (0 : ℚ) < stFit100.m_requested_canvas.z
      ∧ (0 : ℚ) < stFit100.m_requested_canvas.w
      ∧ stFit100.m_canvas_mode = ScaleMode.FIT)
    ∧ (((800 : Int) : ℚ) / ((600 : Int) : ℚ)
          > stFit100.m_requested_canvas.z / stFit100.m_requested_canvas.w →
        (resize stFit100 800 600).m_canvas.z
              - (resize stFit100 800 600).m_canvas.x
            = (((800 : Int) : ℚ) / ((600 : Int) : ℚ))
                / (stFit100.m_requested_canvas.z
                    / stFit100.m_requested_canvas.w)
                * stFit100.m_requested_canvas.z
          ∧ (resize stFit100 800 600).m_canvas.x
              = -(stFit100.m_requested_canvas.z
                  * ((((800 : Int) : ℚ) / ((600 : Int) : ℚ))
                      / (stFit100.m_requested_canvas.z
                          / stFit100.m_requested_canvas.w) - 1)) / 2
          ∧ (resize stFit100 800 600).m_canvas.x < 0
          ∧ (resize stFit100 800 600).m_canvas.x
                + (resize stFit100 800 600).m_canvas.z
              = stFit100.m_requested_canvas.z
          ∧ (resize stFit100 800 600).m_canvas.y = 0
          ∧ (resize stFit100 800 600).m_canvas.w
              = stFit100.m_requested_canvas.w)
    ∧ (¬(((800 : Int) : ℚ) / ((600 : Int) : ℚ)
            > stFit100.m_requested_canvas.z / stFit100.m_requested_canvas.w) →
        (resize stFit100 800 600).m_canvas.w
              - (resize stFit100 800 600).m_canvas.y
            = (stFit100.m_requested_canvas.z / stFit100.m_requested_canvas.w)
                / (((800 : Int) : ℚ) / ((600 : Int) : ℚ))
                * stFit100.m_requested_canvas.w
          ∧ (resize stFit100 800 600).m_canvas.y
              = -(stFit100.m_requested_canvas.w
                  * ((stFit100.m_requested_canvas.z
                        / stFit100.m_requested_canvas.w)
                      / (((800 : Int) : ℚ) / ((600 : Int) : ℚ)) - 1)) / 2
          ∧ (resize stFit100 800 600).m_canvas.y ≤ 0
          ∧ (resize stFit100 800 600).m_canvas.y
                + (resize stFit100 800 600).m_canvas.w
              = stFit100.m_requested_canvas.w
          ∧ (resize stFit100 800 600).m_canvas.x = 0
          ∧ (resize stFit100 800 600).m_canvas.z
              = stFit100.m_requested_canvas.z) := by
  have h3 : (0 : ℚ) < stFit100.m_requested_canvas.z := by
    norm_num +decide [stFit100, setCanvasMode, setCanvasSize, initState]
  have h4 : (0 : ℚ) < stFit100.m_requested_canvas.w := by
    norm_num +decide [stFit100, setCanvasMode, setCanvasSize, initState]
  have h5 : stFit100.m_canvas_mode = ScaleMode.FIT := by
    norm_num +decide [stFit100, setCanvasMode, setCanvasSize, initState]
  have base :=
    C1_fit_branches stFit100 800 600 (by norm_num) (by norm_num) h3 h4 h5
  exact ⟨⟨by norm_num, by norm_num, h3, h4, h5⟩, base.1, base.2⟩

/-- Under the world (flipped) projection over a canvas rectangle with
positive vertical span, canvas y = 0 lands at a strictly smaller window
pixel Y (higher on screen) than any positive canvas y. -/
theorem worldProj_y_down (l r b t cx ch H : ℚ)
    (hspan : 0 < t - b) (hch : 0 < ch) (hH : 0 < H) :
    screenYFromNdc H
        (((flipMatrix.mul (orthoMat l r b t (-1) 1)).mulVec
          ⟨cx, 0, 0, 1⟩).y)
      < screenYFromNdc H
          (((flipMatrix.mul (orthoMat l r b t (-1) 1)).mulVec
            ⟨cx, ch, 0, 1⟩).y) := by
  rw [worldProj_ndcY, worldProj_ndcY, screenYFromNdc_lt_iff _ _ _ hH]
  have key : -(2 * 0 - (t + b)) / (t - b) - -(2 * ch - (t + b)) / (t - b)
      = 2 * ch / (t - b) := by ring
  have pos : 0 < 2 * ch / (t - b) := div_pos (by linarith) hspan
  linarith

/-- Under the UI projection built with swapped bottom/top ortho arguments
(`bArg` above `tArg`), canvas y = 0 likewise lands at a strictly smaller
window pixel Y than any positive canvas y. -/
theorem uiProj_y_down (l r bArg tArg cx ch H : ℚ)
    (hspan : 0 < bArg - tArg) (hch : 0 < ch) (hH : 0 < H) :
    screenYFromNdc H
        (((orthoMat l r bArg tArg (-1) 1).mulVec ⟨cx, 0, 0, 1⟩).y)
      < screenYFromNdc H
          (((orthoMat l r bArg tArg (-1) 1).mulVec ⟨cx, ch, 0, 1⟩).y) := by
  rw [orthoProj_ndcY, orthoProj_ndcY, screenYFromNdc_lt_iff _ _ _ hH]
  have key : (2 * 0 - (tArg + bArg)) / (tArg - bArg)
        - (2 * ch - (tArg + bArg)) / (tArg - bArg)
      = -(2 * ch / (tArg - bArg)) := by ring
  have hdneg : tArg - bArg < 0 := by linarith
  have neg : 2 * ch / (tArg - bArg) < 0 :=
    div_neg_of_pos_of_neg (by linarith) hdneg
  linarith

/-- The Fit-mode canvas rectangle always has a positive vertical span
`w - y` for positive window and requested-canvas dimensions. -/
theorem resize_window_fields (st : GLState) (w h : Int)
    (hmode : st.m_canvas_mode = ScaleMode.WINDOW) :
    (resize st w h).m_height = h
    ∧ (resize st w h).m_canvas = ⟨0, 0, (w : ℚ), (h : ℚ)⟩
    ∧ (resize st w h).m_projection
        = flipMatrix.mul (orthoMat 0 (w : ℚ) 0 (h : ℚ) (-1) 1)
    ∧ (resize st w h).m_ui_projection
        = orthoMat 0 (w : ℚ) (h : ℚ) 0 (-1) 1 := by
  rcases st with ⟨w0, h0, rc, cv, mode, pr, ui, fac⟩
  simp only at hmode
  subst hmode
  refine ⟨?_, ?_, ?_, ?_⟩ <;>
    simp +decide [resize, resizeCore, computeProjection, computeUIProjection]

theorem resize_stretch_fields (st : GLState) (w h : Int)
    (hmode : st.m_canvas_mode = ScaleMode.STRETCH) :
    (resize st w h).m_height = h
    ∧ (resize st w h).m_canvas = st.m_requested_canvas
    ∧ (resize st w h).m_projection
        = flipMatrix.mul
            (orthoMat 0 st.m_requested_canvas.z 0 st.m_requested_canvas.w
              (-1) 1)
    ∧ (resize st w h).m_ui_projection
        = orthoMat 0 st.m_requested_canvas.z st.m_requested_canvas.w 0
            (-1) 1 := by
  rcases st with ⟨w0, h0, rc, cv, mode, pr, ui, fac⟩
  simp only at hmode
  subst hmode
  refine ⟨?_, ?_, ?_, ?_⟩ <;>
    simp +decide [resize, resizeCore, computeProjection, computeUIProjection]

theorem resize_fit_fields (st : GLState) (w h : Int)
    (hmode : st.m_canvas_mode = ScaleMode.FIT) :
    (resize st w h).m_height = h
    ∧ (resize st w h).m_canvas = fitCanvas st.m_requested_canvas w h
    ∧ (resize st w h).m_projection
        = flipMatrix.mul
            (orthoMat (fitCanvas st.m_requested_canvas w h).x
              (fitCanvas st.m_requested_canvas w h).z
              (fitCanvas st.m_requested_canvas w h).y
              (fitCanvas st.m_requested_canvas w h).w (-1) 1)
    ∧ (resize st w h).m_ui_projection
        = orthoMat (fitCanvas st.m_requested_canvas w h).x
            (fitCanvas st.m_requested_canvas w h).z
            (fitCanvas st.m_requested_canvas w h).w
            (fitCanvas st.m_requested_canvas w h).y (-1) 1 := by
  rcases st with ⟨w0, h0, rc, cv, mode, pr, ui, fac⟩
  simp only at hmode
  subst hmode
  refine ⟨?_, ?_, ?_, ?_⟩ <;>
    simp +decide [resize, resizeCore, computeProjection, computeUIProjection,
      fitCanvas]

theorem fitCanvas_span_pos (rc : Vec4 ℚ) (w h : Int)
    (hw : 0 < w) (hh : 0 < h) (hch : 0 < (fitCanvas rc w h).w) :
    0 < (fitCanvas rc w h).w - (fitCanvas rc w h).y := by
  have hwq : (0 : ℚ) < (w : ℚ) := by exact_mod_cast hw
  have hhq : (0 : ℚ) < (h : ℚ) := by exact_mod_cast hh
  have hta : (0 : ℚ) < (w : ℚ) / (h : ℚ) := div_pos hwq hhq
  unfold fitCanvas at hch ⊢
  by_cases hcmp : (w : ℚ) / (h : ℚ) > rc.z / rc.w
  · simp only [if_pos hcmp] at hch ⊢
    linarith
  · simp only [if_neg hcmp] at hch ⊢
    have har : 1 ≤ rc.z / rc.w / ((w : ℚ) / (h : ℚ)) :=
      (one_le_div hta).mpr (not_lt.mp hcmp)
    have heq : rc.z / rc.w / ((w : ℚ) / (h : ℚ)) * rc.w
          + -rc.w * (rc.z / rc.w / ((w : ℚ) / (h : ℚ)) - 1) * (0.5 : ℚ)
        = rc.w * (rc.z / rc.w / ((w : ℚ) / (h : ℚ)) + 1) / 2 := by
      ring
    rw [heq] at hch
    have hrcw : 0 < rc.w := by
      by_contra hneg
      push_neg at hneg
      have hnp : rc.w * (rc.z / rc.w / ((w : ℚ) / (h : ℚ)) + 1) ≤ 0 :=
        mul_nonpos_of_nonpos_of_nonneg hneg (by linarith)
      linarith
    have hpos : 0 < rc.z / rc.w / ((w : ℚ) / (h : ℚ)) * rc.w :=
      mul_pos (by linarith) hrcw
    linarith

/-- Claim C6 counterexample: in the Fit example state (window 800×600,
canvas 100×100), the point `(50, 0)` (canvas top edge) projects to window
pixel Y 0 — the TOP of the screen — while `(50, 100)` projects to 600, so
the top edge does not project to a larger screen-Y than the bottom edge. -/
theorem C6_counterexample :
    worldScreenY st800 ⟨50, 0, 0, 1⟩ = 0
    ∧ worldScreenY st800 ⟨50, 100, 0, 1⟩ = 600
    ∧ ¬(worldScreenY st800 ⟨50, 0, 0, 1⟩
          > worldScreenY st800 ⟨50, 100, 0, 1⟩) := by
  refine ⟨?_, ?_, ?_⟩ <;>
    norm_num +decide [worldScreenY, screenYFromNdc, st800, resize,
      resizeCore, stFit100, setCanvasMode, setCanvasSize, initState,
      computeProjection, computeUIProjection, flipMatrix, scaleMat,
      orthoMat, Mat4.mul, Mat4.mulVec]

/-- Claim C6 (amended): for every canvas x-coordinate cx, every canvas
mode, and every state produced by a resize with positive window
dimensions whose resulting canvas height (`m_canvas.w`, the value
`getCanvasHeight()` returns) is positive, the world projection maps
`(cx, 0)` (canvas top edge) to a SMALLER screen-Y (higher on screen) than
`(cx, canvasHeight)`, i.e. the convention is Y-down with the canvas top
at the screen top; and the UI projection, computed by swapping the
top/bottom orthographic arguments instead of a flip post-multiply,
independently satisfies the same top-left-origin Y-down property. -/
theorem C6_y_down (st : GLState) (w h : Int) (cx : ℚ)
    (hw : 0 < w) (hh : 0 < h)
    (hch : 0 < (resize st w h).m_canvas.w) :
    worldScreenY (resize st w h) ⟨cx, 0, 0, 1⟩
        < worldScreenY (resize st w h) ⟨cx, (resize st w h).m_canvas.w, 0, 1⟩
    ∧ uiScreenY (resize st w h) ⟨cx, 0, 0, 1⟩
        < uiScreenY (resize st w h)
            ⟨cx, (resize st w h).m_canvas.w, 0, 1⟩ := by
  have hhq : (0 : ℚ) < (h : ℚ) := by exact_mod_cast hh
  cases hmode : st.m_canvas_mode with
  | WINDOW =>
      obtain ⟨e1, e2, e3, e4⟩ := resize_window_fields st w h hmode
      unfold worldScreenY uiScreenY
      rw [e1, e2, e3, e4]
      exact ⟨worldProj_y_down 0 (w : ℚ) 0 (h : ℚ) cx (h : ℚ) (h : ℚ)
          (by linarith) hhq hhq,
        uiProj_y_down 0 (w : ℚ) (h : ℚ) 0 cx (h : ℚ) (h : ℚ)
          (by linarith) hhq hhq⟩
  | STRETCH =>
      obtain ⟨e1, e2, e3, e4⟩ := resize_stretch_fields st w h hmode
      rw [e2] at hch
      unfold worldScreenY uiScreenY
      rw [e1, e2, e3, e4]
      exact ⟨worldProj_y_down 0 st.m_requested_canvas.z 0
          st.m_requested_canvas.w cx st.m_requested_canvas.w (h : ℚ)
          (by linarith) hch hhq,
        uiProj_y_down 0 st.m_requested_canvas.z st.m_requested_canvas.w 0
          cx st.m_requested_canvas.w (h : ℚ) (by linarith) hch hhq⟩
  | FIT =>
      obtain ⟨e1, e2, e3, e4⟩ := resize_fit_fields st w h hmode
      rw [e2] at hch
      have hspan := fitCanvas_span_pos st.m_requested_canvas w h hw hh hch
      unfold worldScreenY uiScreenY
      rw [e1, e2, e3, e4]
      exact ⟨worldProj_y_down (fitCanvas st.m_requested_canvas w h).x
          (fitCanvas st.m_requested_canvas w h).z
          (fitCanvas st.m_requested_canvas w h).y
          (fitCanvas st.m_requested_canvas w h).w cx
          (fitCanvas st.m_requested_canvas w h).w (h : ℚ) hspan hch hhq,
        uiProj_y_down (fitCanvas st.m_requested_canvas w h).x
          (fitCanvas st.m_requested_canvas w h).z
          (fitCanvas st.m_requested_canvas w h).w
          (fitCanvas st.m_requested_canvas w h).y cx
          (fitCanvas st.m_requested_canvas w h).w (h : ℚ) hspan hch hhq⟩

/-- Claim C6 witness: the amended Y-down property instantiated at the Fit
example configuration (window 800×600, requested canvas 100×100, canvas
height 100 > 0) with `cx = 50`. -/
theorem C6_y_down_witness :
    ((0 : Int) < 800 ∧ (0 : Int) < 600
      ∧ (0 : ℚ) < (resize stFit100 800 600).m_canvas.w)
    ∧ (worldScreenY (resize stFit100 800 600) ⟨50, 0, 0, 1⟩
        < worldScreenY (resize stFit100 800 600)
            ⟨50, (resize stFit100 800 600).m_canvas.w, 0, 1⟩
      ∧ uiScreenY (resize stFit100 800 600) ⟨50, 0, 0, 1⟩
          < uiScreenY (resize stFit100 800 600)
              ⟨50, (resize stFit100 800 600).m_canvas.w, 0, 1⟩) := by
  have hch : (0 : ℚ) < (resize stFit100 800 600).m_canvas.w := by
    norm_num +decide [resize, resizeCore, stFit100, setCanvasMode,
      setCanvasSize, initState, computeProjection, computeUIProjection]
  exact ⟨⟨by norm_num, by norm_num, hch⟩,
    C6_y_down stFit100 800 600 50 (by norm_num) (by norm_num) hch⟩

end SGG
